import Mathlib

/-!
# Verification of the openalgo paper-trading core

Shallow embedding of the paper-trading simulation core of the openalgo
repository, together with theorems settling the specification claims about it.

The embedding follows the source closely:

* `services/paper_trading/order_matching_engine.py` — the order matching
  engine (`fill_order`, `update_position`, `update_account_balance`,
  `reject_order`, the `process_*` order evaluators and `cancel_order`);
* `database/paper_trading_db.py` — the `PaperAccount`, `PaperOrder`,
  `PaperPosition` and `PaperTrade` rows (column defaults included);
* `services/trading_service_factory.py` — trading-mode resolution
  (`get_trading_mode`, `get_current_mode`).

Modelling conventions: Python `Decimal` values are modelled as exact
rationals (`ℚ`); the SQLAlchemy session is modelled as an explicit
`EngineState` holding the four row tables as lists, with ORM row mutation
modelled as replacement of the first matching row; `datetime.utcnow()` and
`generate_trade_id()` are supplied by an explicit environment `Env`; the
market-data feed is an explicit `Option ℚ` current-price argument.
-/

deriving instance DecidableEq for Except

namespace OpenAlgo

/-- A `paper_accounts` row (`PaperAccount` in `database/paper_trading_db.py`).
Only the columns the matching engine reads or writes are modelled. -/
structure PaperAccount where
  user_id : String
  initial_balance : ℚ
  current_balance : ℚ
  deriving Repr, DecidableEq

/-- A `paper_orders` row (`PaperOrder` in `database/paper_trading_db.py`).
Timestamps are abstract instants (`Nat`). -/
structure PaperOrder where
  order_id : String
  user_id : String
  symbol : String
  exchange : String
  action : String
  product : String
  price_type : String
  quantity : Int
  price : Option ℚ
  trigger_price : Option ℚ
  status : String
  filled_quantity : Int
  average_price : Option ℚ
  filled_timestamp : Option Nat
  cancelled_timestamp : Option Nat
  rejection_reason : Option String
  deriving Repr, DecidableEq

/-- A `paper_positions` row (`PaperPosition` in `database/paper_trading_db.py`). -/
structure PaperPosition where
  user_id : String
  symbol : String
  exchange : String
  product : String
  quantity : Int
  average_price : ℚ
  deriving Repr, DecidableEq

/-- A `paper_trades` row (`PaperTrade` in `database/paper_trading_db.py`).
`brokerage` and `taxes` carry the column defaults (`0.00`) because
`_fill_order` never passes them. -/
structure PaperTrade where
  user_id : String
  order_id : String
  trade_id : String
  symbol : String
  exchange : String
  action : String
  product : String
  quantity : Int
  price : ℚ
  trade_value : ℚ
  brokerage : ℚ
  taxes : ℚ
  net_value : ℚ
  deriving Repr, DecidableEq

/-- The persistent state seen through the engine's database session. -/
structure EngineState where
  accounts : List PaperAccount
  orders : List PaperOrder
  positions : List PaperPosition
  trades : List PaperTrade
  deriving Repr, DecidableEq

/-- Effectful inputs of a fill: `datetime.utcnow()` and `generate_trade_id()`. -/
structure Env where
  now : Nat
  trade_id : String
  deriving Repr, DecidableEq

/-- Replace the first element satisfying `p` by its image under `f`
(models in-place mutation of the first row returned by a query). -/
def updateFirst (p : α → Bool) (f : α → α) : List α → List α
  | [] => []
  | x :: xs => if p x then f x :: xs else x :: updateFirst p f xs

/-- Remove the first element satisfying `p` (models `session.delete` of the
row returned by a query). -/
def removeFirst (p : α → Bool) : List α → List α
  | [] => []
  | x :: xs => if p x then xs else x :: removeFirst p xs

/-- `session.query(PaperAccount).filter_by(user_id=...).first()`. -/
def findAccount (s : EngineState) (uid : String) : Option PaperAccount :=
  s.accounts.find? (fun a => a.user_id == uid)

/-- The position-row key used by `_update_position`:
`(user_id, symbol, exchange, product)`. -/
def posKeyMatches (p : PaperPosition) (o : PaperOrder) : Bool :=
  p.user_id == o.user_id && p.symbol == o.symbol &&
    p.exchange == o.exchange && p.product == o.product

/-- `OrderMatchingEngine._reject_order`: set status `REJECTED` with the
given reason on the order row; no other table is touched. -/
def reject_order (s : EngineState) (o : PaperOrder) (reason : String) :
    PaperOrder × EngineState :=
  let o' := { o with status := "REJECTED", rejection_reason := some reason }
  (o', { s with orders := updateFirst (fun x => x.order_id == o.order_id) (fun _ => o') s.orders })

/-- `OrderMatchingEngine._update_position`, transcribed branch by branch. -/
def update_position (positions : List PaperPosition) (o : PaperOrder)
    (fill_price : ℚ) (fill_quantity : Int) : List PaperPosition :=
  let quantity_change : Int := if o.action == "BUY" then fill_quantity else -fill_quantity
  match positions.find? (posKeyMatches · o) with
  | some position =>
    let old_quantity := position.quantity
    let new_quantity := old_quantity + quantity_change
    if new_quantity = 0 then
      removeFirst (posKeyMatches · o) positions
    else
      let new_average : ℚ :=
        if (old_quantity > 0 ∧ quantity_change > 0) ∨ (old_quantity < 0 ∧ quantity_change < 0) then
          (position.average_price * (old_quantity.natAbs : ℚ) +
              fill_price * (quantity_change.natAbs : ℚ)) /
            ((old_quantity.natAbs : ℚ) + (quantity_change.natAbs : ℚ))
        else if new_quantity.natAbs < old_quantity.natAbs then
          position.average_price
        else
          fill_price
      updateFirst (posKeyMatches · o)
        (fun p => { p with quantity := new_quantity, average_price := new_average }) positions
  | none =>
    if quantity_change ≠ 0 then
      positions ++ [{ user_id := o.user_id, symbol := o.symbol, exchange := o.exchange,
                      product := o.product, quantity := quantity_change,
                      average_price := fill_price }]
    else
      positions

/-- `OrderMatchingEngine._update_account_balance`: debit the first matching
account row on BUY, credit it otherwise; no-op when no account row exists. -/
def update_account_balance (accounts : List PaperAccount) (o : PaperOrder)
    (fill_price : ℚ) (fill_quantity : Int) : List PaperAccount :=
  let trade_value := fill_price * (fill_quantity : ℚ)
  updateFirst (fun a => a.user_id == o.user_id)
    (fun a =>
      if o.action == "BUY" then { a with current_balance := a.current_balance - trade_value }
      else { a with current_balance := a.current_balance + trade_value })
    accounts

/-- The funds guard of `_fill_order`:
`if not account or account.current_balance < required_funds` for BUY orders. -/
def insufficient_funds (s : EngineState) (o : PaperOrder) (required_funds : ℚ) : Bool :=
  o.action == "BUY" &&
    (match findAccount s o.user_id with
     | none => true
     | some account => decide (account.current_balance < required_funds))

/-- The `PaperTrade(...)` row constructed by `_fill_order`: `trade_value` and
`net_value` are both `fill_price * fill_quantity` ("Simplified - no
brokerage/taxes for now"); `brokerage` and `taxes` take the column default 0. -/
def mk_trade (o : PaperOrder) (fill_price : ℚ) (fill_quantity : Int) (env : Env) : PaperTrade :=
  { user_id := o.user_id, order_id := o.order_id, trade_id := env.trade_id,
    symbol := o.symbol, exchange := o.exchange, action := o.action, product := o.product,
    quantity := fill_quantity, price := fill_price,
    trade_value := fill_price * (fill_quantity : ℚ),
    brokerage := 0, taxes := 0,
    net_value := fill_price * (fill_quantity : ℚ) }

/-- `OrderMatchingEngine._fill_order`: on a blocked BUY, reject with
"Insufficient funds"; otherwise mark the order FILLED, insert the trade row,
upsert the position and adjust the balance.  Returns the `True` handled flag,
the updated order row and the updated state. -/
def fill_order (s : EngineState) (o : PaperOrder) (fill_price : ℚ)
    (fill_quantity : Int) (env : Env) : Bool × PaperOrder × EngineState :=
  let required_funds := fill_price * (fill_quantity : ℚ)
  if insufficient_funds s o required_funds then
    let r := reject_order s o "Insufficient funds"
    (true, r.1, r.2)
  else
    let o' := { o with status := "FILLED", filled_quantity := fill_quantity,
                       average_price := some fill_price, filled_timestamp := some env.now }
    (true, o',
      { accounts := update_account_balance s.accounts o fill_price fill_quantity,
        orders := updateFirst (fun x => x.order_id == o.order_id) (fun _ => o') s.orders,
        positions := update_position s.positions o fill_price fill_quantity,
        trades := s.trades ++ [mk_trade o fill_price fill_quantity env] })

/-- `OrderMatchingEngine._process_market_order`. -/
def process_market_order (s : EngineState) (o : PaperOrder)
    (current_price : Option ℚ) (env : Env) : Bool × PaperOrder × EngineState :=
  match current_price with
  | none =>
    let r := reject_order s o "Unable to get current market price"
    (true, r.1, r.2)
  | some p => fill_order s o p o.quantity env

/-- The `should_fill` condition of `_process_limit_order`. -/
def limit_should_fill (o : PaperOrder) (current_price limit_price : ℚ) : Bool :=
  if o.action == "BUY" then decide (current_price ≤ limit_price)
  else if o.action == "SELL" then decide (limit_price ≤ current_price)
  else false

/-- `OrderMatchingEngine._process_limit_order`. -/
def process_limit_order (s : EngineState) (o : PaperOrder)
    (current_price : Option ℚ) (env : Env) : Bool × PaperOrder × EngineState :=
  match o.price with
  | none =>
    let r := reject_order s o "Limit order missing price"
    (true, r.1, r.2)
  | some limit_price =>
    match current_price with
    | none => (false, o, s)
    | some p =>
      if limit_should_fill o p limit_price then fill_order s o limit_price o.quantity env
      else (false, o, s)

/-- The `should_trigger` condition of `_process_stop_loss_order`. -/
def sl_should_trigger (o : PaperOrder) (current_price trigger_price : ℚ) : Bool :=
  if o.action == "BUY" then decide (trigger_price ≤ current_price)
  else if o.action == "SELL" then decide (current_price ≤ trigger_price)
  else false

/-- The `execution_price` computation of `_process_stop_loss_order`; note the
Python truthiness test `order.price if order.price else current_price`, which
treats a configured price of `0` like a missing one. -/
def sl_execution_price (o : PaperOrder) (current_price : ℚ) : ℚ :=
  if o.price_type == "SL" then
    match o.price with
    | some pr => if pr == 0 then current_price else pr
    | none => current_price
  else
    current_price

/-- `OrderMatchingEngine._process_stop_loss_order`. -/
def process_stop_loss_order (s : EngineState) (o : PaperOrder)
    (current_price : Option ℚ) (env : Env) : Bool × PaperOrder × EngineState :=
  match o.trigger_price with
  | none =>
    let r := reject_order s o "Stop-loss order missing trigger price"
    (true, r.1, r.2)
  | some trigger =>
    match current_price with
    | none => (false, o, s)
    | some p =>
      if sl_should_trigger o p trigger then
        fill_order s o (sl_execution_price o p) o.quantity env
      else (false, o, s)

/-- `OrderMatchingEngine.process_order`: dispatch on `price_type`. -/
def process_order (s : EngineState) (o : PaperOrder)
    (current_price : Option ℚ) (env : Env) : Bool × PaperOrder × EngineState :=
  if o.price_type == "MARKET" then process_market_order s o current_price env
  else if o.price_type == "LIMIT" then process_limit_order s o current_price env
  else if o.price_type == "SL" || o.price_type == "SLM" then
    process_stop_loss_order s o current_price env
  else
    let r := reject_order s o ("Unsupported order type: " ++ o.price_type)
    (true, r.1, r.2)

/-- The row filter of `cancel_order`:
`filter_by(order_id=order_id, status='PENDING')`. -/
def cancel_pred (oid : String) (o : PaperOrder) : Bool :=
  o.order_id == oid && o.status == "PENDING"

/-- The row mutation of `cancel_order`: status `CANCELLED` plus the
cancellation timestamp. -/
def cancel_update (env : Env) (o : PaperOrder) : PaperOrder :=
  { o with status := "CANCELLED", cancelled_timestamp := some env.now }

/-- `OrderMatchingEngine.cancel_order`: compare-and-set from PENDING on the
row found by `filter_by(order_id=..., status='PENDING').first()`. -/
def cancel_order (s : EngineState) (oid : String) (env : Env) : Bool × EngineState :=
  match s.orders.find? (cancel_pred oid) with
  | some _ =>
    (true, { s with orders := updateFirst (cancel_pred oid) (cancel_update env) s.orders })
  | none => (false, s)

/-- One fill request as passed to `_fill_order`. -/
structure FillInput where
  order : PaperOrder
  fill_price : ℚ
  fill_quantity : Int
  env : Env

/-- Apply a sequence of fills through `_fill_order`, threading the state. -/
def apply_fills (s : EngineState) (fills : List FillInput) : EngineState :=
  fills.foldl (fun st f => (fill_order st f.order f.fill_price f.fill_quantity f.env).2.2) s

/-- Sum of `fill_price × fill_quantity` over the recorded BUY trades of a user. -/
def buy_value_sum (uid : String) (trades : List PaperTrade) : ℚ :=
  ((trades.filter (fun t => t.user_id == uid && t.action == "BUY")).map
    (fun t => t.price * (t.quantity : ℚ))).sum

/-- Sum of `fill_price × fill_quantity` over the recorded SELL trades of a user. -/
def sell_value_sum (uid : String) (trades : List PaperTrade) : ℚ :=
  ((trades.filter (fun t => t.user_id == uid && t.action == "SELL")).map
    (fun t => t.price * (t.quantity : ℚ))).sum

/-- The balance-conservation invariant of the spec:
`current_balance = initial_balance - Σ(BUY fill values) + Σ(SELL fill values)`. -/
def balance_conserved (s : EngineState) (uid : String) : Bool :=
  match findAccount s uid with
  | some a =>
    decide (a.current_balance =
      a.initial_balance - buy_value_sum uid s.trades + sell_value_sum uid s.trades)
  | none => true

/-- No persisted position row has quantity zero. -/
def positions_nonzero (s : EngineState) : Bool :=
  s.positions.all (fun p => p.quantity != 0)

/-- A trade row carries zero simulated costs and a net value equal to its
trade value, itself `price × quantity`. -/
def trade_costs_zero (t : PaperTrade) : Bool :=
  decide (t.brokerage = 0) && decide (t.taxes = 0) &&
    decide (t.net_value = t.trade_value) &&
    decide (t.trade_value = t.price * (t.quantity : ℚ))

/-- Every recorded trade row satisfies `trade_costs_zero`. -/
def trades_costs_zero (s : EngineState) : Bool :=
  s.trades.all trade_costs_zero

/-- Python `str.lower`, character by character. -/
def pyLower (s : String) : String := ⟨s.data.map Char.toLower⟩

/-- Drop leading whitespace characters. -/
def dropLeadingWhitespace : List Char → List Char
  | [] => []
  | c :: cs => if c.isWhitespace then dropLeadingWhitespace cs else c :: cs

/-- Python `str.strip`: remove leading and trailing whitespace. -/
def pyStrip (s : String) : String :=
  ⟨(dropLeadingWhitespace (dropLeadingWhitespace s.data).reverse).reverse⟩

/-- `TradingServiceFactory._get_trading_mode`: read the configured value
(`none` models an unset `OPENALGO_TRADING_MODE`, defaulted to `"live"`),
lowercase then trim it, and reject anything other than `live`/`paper` with a
`ValueError` (modelled as `Except.error`). -/
def get_trading_mode (raw : Option String) : Except String String :=
  let trading_mode := pyStrip (pyLower (raw.getD "live"))
  if trading_mode == "live" || trading_mode == "paper" then Except.ok trading_mode
  else Except.error ("Invalid OPENALGO_TRADING_MODE: " ++ trading_mode)

/-- `TradingServiceFactory.get_current_mode`: delegate to
`_get_trading_mode`, but catch the `ValueError` and fall back to `"live"`. -/
def get_current_mode (raw : Option String) : String :=
  match get_trading_mode raw with
  | Except.ok m => m
  | Except.error _ => "live"

/-- A pending MARKET BUY order used by the concrete scenarios below. -/
def exOrder : PaperOrder :=
  { order_id := "O1", user_id := "U1", symbol := "RELIANCE",
    exchange := "NSE", action := "BUY", product := "MIS", price_type := "MARKET",
    quantity := 10, price := none, trigger_price := none, status := "PENDING",
    filled_quantity := 0, average_price := none, filled_timestamp := none,
    cancelled_timestamp := none, rejection_reason := none }

/-- A fresh account with the default opening balance. -/
def exAccount : PaperAccount :=
  { user_id := "U1", initial_balance := 50000, current_balance := 50000 }

/-- A fresh one-account state holding the pending order `exOrder`. -/
def exState : EngineState :=
  { accounts := [exAccount], orders := [exOrder], positions := [], trades := [] }

/-- A concrete fill environment. -/
def exEnv : Env := { now := 7, trade_id := "TR1" }

/-- The spec scenario account for insufficient funds: balance 1000. -/
def poorAccount : PaperAccount :=
  { user_id := "U1", initial_balance := 1000, current_balance := 1000 }

/-- BUY of 100 shares (at price 50 the required funds are 5000). -/
def bigBuyOrder : PaperOrder := { exOrder with quantity := 100 }

/-- State for the insufficient-funds scenarios. -/
def poorState : EngineState :=
  { accounts := [poorAccount], orders := [bigBuyOrder], positions := [], trades := [] }

/-- A long position of 10 @ 100 (the spec averaging example). -/
def longPosition : PaperPosition :=
  { user_id := "U1", symbol := "RELIANCE", exchange := "NSE",
    product := "MIS", quantity := 10, average_price := 100 }

/-- A SELL order against `longPosition`. -/
def sellOrder : PaperOrder := { exOrder with action := "SELL" }

/-- A LIMIT BUY at limit price 50 for 100 shares. -/
def limitBuyOrder : PaperOrder :=
  { exOrder with price_type := "LIMIT", price := some 50, quantity := 100 }

/-- State holding `limitBuyOrder` on the underfunded account. -/
def limitPoorState : EngineState :=
  { accounts := [poorAccount], orders := [limitBuyOrder], positions := [], trades := [] }

/-- An SL BUY with trigger 100 whose configured limit price is `0`
(a set price that Python truthiness treats as unset). -/
def slZeroPriceOrder : PaperOrder :=
  { exOrder with price_type := "SL", price := some 0, trigger_price := some 100, quantity := 1 }

/-- State holding `slZeroPriceOrder` on the well-funded account. -/
def slState : EngineState :=
  { accounts := [exAccount], orders := [slZeroPriceOrder], positions := [], trades := [] }

/-- A state that already holds `longPosition` (for the position invariant). -/
def posState : EngineState :=
  { accounts := [exAccount], orders := [sellOrder], positions := [longPosition], trades := [] }

def c1Fill1 : FillInput :=
  { order := exOrder, fill_price := 100, fill_quantity := 10, env := exEnv }

def c1Fill2 : FillInput :=
  { order := sellOrder, fill_price := 120, fill_quantity := 5, env := exEnv }

def limitWitOrder : PaperOrder := { exOrder with price_type := "LIMIT", price := some 100 }

def slmWitOrder : PaperOrder :=
  { exOrder with price_type := "SLM", trigger_price := some 100, quantity := 1 }

/-! ## Helper lemmas about the list primitives -/

/-- Finding by the same predicate after `updateFirst` returns the updated row,
provided the update preserves the predicate. -/
theorem find?_updateFirst_self {α : Type} (p : α → Bool) (f : α → α) (l : List α)
    (hpf : ∀ a, p (f a) = p a) :
    (updateFirst p f l).find? p = (l.find? p).map f := by
  induction l with
  | nil => simp [updateFirst]
  | cons x xs ih =>
    by_cases hx : p x
    · simp [updateFirst, hx, List.find?_cons_of_pos, hpf x]
    · simp only [updateFirst, hx, if_neg, Bool.false_eq_true, not_false_eq_true,
        List.find?_cons_of_neg, ih]

/-- `updateFirst` is invisible to a search whose predicate is disjoint from the
update predicate and preserved by the update. -/
theorem find?_updateFirst_other {α : Type} (p q : α → Bool) (f : α → α) (l : List α)
    (hqf : ∀ a, q (f a) = q a) (hpq : ∀ a, p a = true → q a = false) :
    (updateFirst p f l).find? q = l.find? q := by
  induction l with
  | nil => simp [updateFirst]
  | cons x xs ih =>
    by_cases hx : p x
    · have hqx : q x = false := hpq x hx
      have hqfx : q (f x) = false := by rw [hqf, hqx]
      simp [updateFirst, hx, List.find?_cons_of_neg, hqx, hqfx]
    · by_cases hq : q x
      · simp [updateFirst, hx, List.find?_cons_of_pos, hq]
      · simp [updateFirst, hx, List.find?_cons_of_neg, hq, ih]

/-- Every member of `updateFirst p f l` is a member of `l` or the image under
`f` of a member of `l`. -/
theorem mem_updateFirst {α : Type} {p : α → Bool} {f : α → α} {l : List α} {a : α} :
    a ∈ updateFirst p f l → a ∈ l ∨ ∃ b, b ∈ l ∧ a = f b := by
  induction l with
  | nil => intro h; simp [updateFirst] at h
  | cons x xs ih =>
    intro h
    by_cases hx : p x
    · simp only [updateFirst, hx, if_true, List.mem_cons] at h
      rcases h with h | h
      · exact Or.inr ⟨x, List.mem_cons_self x xs, h⟩
      · exact Or.inl (List.mem_cons_of_mem x h)
    · simp [updateFirst, hx] at h
      rcases h with h | h
      · exact Or.inl (h ▸ List.mem_cons_self x xs)
      · rcases ih h with h' | ⟨b, hb, hab⟩
        · exact Or.inl (List.mem_cons_of_mem x h')
        · exact Or.inr ⟨b, List.mem_cons_of_mem x hb, hab⟩

/-- `removeFirst` only removes rows: members of the result were members. -/
theorem mem_removeFirst {α : Type} {p : α → Bool} {l : List α} {a : α} :
    a ∈ removeFirst p l → a ∈ l := by
  induction l with
  | nil => intro h; simp [removeFirst] at h
  | cons x xs ih =>
    intro h
    by_cases hx : p x
    · simp only [removeFirst, hx, if_true] at h
      exact List.mem_cons_of_mem x h
    · simp [removeFirst, hx] at h
      rcases h with h | h
      · exact h ▸ List.mem_cons_self x xs
      · exact List.mem_cons_of_mem x (ih h)

/-- A successful `find?` splits the list around the hit, and `updateFirst`
rewrites exactly that hit. -/
theorem updateFirst_decomp {α : Type} (p : α → Bool) (f : α → α) {l : List α} {x : α} :
    l.find? p = some x →
    ∃ l₁ l₂, l = l₁ ++ x :: l₂ ∧ (∀ y ∈ l₁, p y = false) ∧
      updateFirst p f l = l₁ ++ f x :: l₂ := by
  induction l with
  | nil => intro h; simp at h
  | cons z zs ih =>
    intro h
    by_cases hz : p z
    · rw [List.find?_cons_of_pos _ hz] at h
      obtain rfl : z = x := by injection h
      exact ⟨[], zs, rfl, by simp, by simp [updateFirst, hz]⟩
    · rw [List.find?_cons_of_neg _ hz] at h
      obtain ⟨l₁, l₂, hl, hl₁, hu⟩ := ih h
      refine ⟨z :: l₁, l₂, by simp [hl], ?_, ?_⟩
      · intro y hy
        rcases List.mem_cons.mp hy with rfl | hy'
        · simpa using hz
        · exact hl₁ y hy'
      · simp [updateFirst, hz, hu]

/-- `buy_value_sum` distributes over list append. -/
theorem buy_value_sum_append (uid : String) (l₁ l₂ : List PaperTrade) :
    buy_value_sum uid (l₁ ++ l₂) = buy_value_sum uid l₁ + buy_value_sum uid l₂ := by
  simp [buy_value_sum, List.filter_append]

/-- `sell_value_sum` distributes over list append. -/
theorem sell_value_sum_append (uid : String) (l₁ l₂ : List PaperTrade) :
    sell_value_sum uid (l₁ ++ l₂) = sell_value_sum uid l₁ + sell_value_sum uid l₂ := by
  simp [sell_value_sum, List.filter_append]

/-- Looking up the filled order's own account after
`_update_account_balance` returns the debited/credited row. -/
theorem findAccount_update_self (s : EngineState) (o : PaperOrder) (fp : ℚ) (fq : Int) :
    (update_account_balance s.accounts o fp fq).find? (fun a => a.user_id == o.user_id) =
      (s.accounts.find? (fun a => a.user_id == o.user_id)).map
        (fun a =>
          if o.action == "BUY" then { a with current_balance := a.current_balance - fp * (fq : ℚ) }
          else { a with current_balance := a.current_balance + fp * (fq : ℚ) }) := by
  simp only [update_account_balance]
  exact find?_updateFirst_self _ _ _
    (by intro a; by_cases hb : (o.action == "BUY") = true <;> simp [hb])

/-- `_update_account_balance` leaves every other user's account lookup
unchanged. -/
theorem findAccount_update_other (s : EngineState) (o : PaperOrder) (fp : ℚ)
    (fq : Int) (uid : String) (huid : uid ≠ o.user_id) :
    (update_account_balance s.accounts o fp fq).find? (fun a => a.user_id == uid) =
      s.accounts.find? (fun a => a.user_id == uid) := by
  simp only [update_account_balance]
  apply find?_updateFirst_other
  · intro a; by_cases hb : (o.action == "BUY") = true <;> simp [hb]
  · intro a ha
    have h1 : a.user_id = o.user_id := by simpa using ha
    simp [h1]
    exact fun hcon => huid hcon.symm

/-- One `_fill_order` call (reject or fill) preserves the balance-conservation
invariant for every user. -/
theorem balance_conserved_fill (s : EngineState) (o : PaperOrder) (fp : ℚ) (fq : Int)
    (env : Env) (uid : String)
    (hact : o.action = "BUY" ∨ o.action = "SELL")
    (h : balance_conserved s uid = true) :
    balance_conserved (fill_order s o fp fq env).2.2 uid = true := by
  cases hins : insufficient_funds s o (fp * (fq : ℚ)) with
  | true =>
    simp only [fill_order, hins, if_true]
    simpa [balance_conserved, findAccount, reject_order] using h
  | false =>
    simp only [fill_order, hins, Bool.false_eq_true, if_false]
    by_cases huid : uid = o.user_id
    · subst huid
      simp only [balance_conserved, findAccount]
      rw [findAccount_update_self]
      cases hfa : s.accounts.find? (fun a => a.user_id == o.user_id) with
      | none => rfl
      | some a =>
        simp only [Option.map_some']
        have h' : a.current_balance =
            a.initial_balance - buy_value_sum o.user_id s.trades +
              sell_value_sum o.user_id s.trades := by
          simpa [balance_conserved, findAccount, hfa] using h
        rw [buy_value_sum_append, sell_value_sum_append]
        rcases hact with hb | hsell
        · have hbeq : (o.action == "BUY") = true := by simp [hb]
          simp [hbeq, buy_value_sum, sell_value_sum, List.filter, mk_trade, hb, h']
          ring
        · have hbeq : (o.action == "BUY") = false := by simp [hsell]
          simp [hbeq, buy_value_sum, sell_value_sum, List.filter, mk_trade, hsell, h']
          ring
    · simp only [balance_conserved, findAccount]
      rw [findAccount_update_other _ _ _ _ _ huid]
      rw [buy_value_sum_append, sell_value_sum_append]
      have hne : (o.user_id == uid) = false := by
        simp
        exact fun hcon => huid hcon.symm
      have hz1 : buy_value_sum uid [mk_trade o fp fq env] = 0 := by
        simp [buy_value_sum, List.filter, mk_trade, hne]
      have hz2 : sell_value_sum uid [mk_trade o fp fq env] = 0 := by
        simp [sell_value_sum, List.filter, mk_trade, hne]
      rw [hz1, hz2]
      simpa [balance_conserved, findAccount] using h


/-- `_update_position` never produces a position row with quantity zero when
all existing rows are nonzero. -/
theorem update_position_nonzero (ps : List PaperPosition) (o : PaperOrder) (fp : ℚ) (fq : Int)
    (h : ∀ p ∈ ps, p.quantity ≠ 0) :
    ∀ p ∈ update_position ps o fp fq, p.quantity ≠ 0 := by
  intro p hp
  simp only [update_position] at hp
  split at hp
  all_goals split at hp
  all_goals split at hp
  all_goals
    first
      | exact h p (mem_removeFirst hp)
      | exact h p hp
      | (rcases List.mem_append.mp hp with hmem | hnew
         · exact h p hmem
         · simp only [List.mem_singleton] at hnew
           subst hnew
           simp_all)
      | (rcases mem_updateFirst hp with hmem | ⟨b, hb2, rfl⟩
         · exact h p hmem
         · simp_all)


/-- The cancel row filter holds exactly for the matching PENDING order. -/
theorem cancel_pred_iff (oid : String) (o : PaperOrder) :
    cancel_pred oid o = true ↔ o.order_id = oid ∧ o.status = "PENDING" := by
  simp [cancel_pred, Bool.and_eq_true]

/-- C8: Cancellation is a compare-and-set from PENDING: `cancel_order` succeeds
exactly when an order with the given id is persisted with status PENDING; on
failure nothing changes; on success that order becomes CANCELLED with the
cancellation timestamp; and (given the unique `order_id` constraint) a second
cancel of the same id fails after the first succeeds. -/
theorem cancel_order_compare_and_set
    (s : EngineState) (oid : String) (env env' : Env)
    (hids : (s.orders.map PaperOrder.order_id).Nodup) :
    ((cancel_order s oid env).1 = true ↔
      ∃ o ∈ s.orders, o.order_id = oid ∧ o.status = "PENDING") ∧
    ((cancel_order s oid env).1 = false → (cancel_order s oid env).2 = s) ∧
    (∀ o ∈ s.orders, o.order_id = oid → o.status = "PENDING" →
      cancel_update env o ∈ (cancel_order s oid env).2.orders) ∧
    ((cancel_order s oid env).1 = true →
      (cancel_order (cancel_order s oid env).2 oid env').1 = false) := by
  refine ⟨?_, ?_, ?_, ?_⟩
  · cases hf : s.orders.find? (cancel_pred oid) with
    | none =>
      simp only [cancel_order, hf]
      constructor
      · intro h; exact absurd h (by simp)
      · rintro ⟨o, ho, hid, hst⟩
        have h2 := List.find?_eq_none.mp hf o ho
        simp [cancel_pred, hid, hst] at h2
    | some x =>
      simp only [cancel_order, hf]
      have hx := (cancel_pred_iff oid x).mp (List.find?_some hf)
      constructor
      · intro _
        exact ⟨x, List.mem_of_find?_eq_some hf, hx⟩
      · intro _
        simp
  · cases hf : s.orders.find? (cancel_pred oid) with
    | none => intro _; simp [cancel_order, hf]
    | some x => intro h; simp [cancel_order, hf] at h
  · intro o ho hid hst
    have hpred : cancel_pred oid o = true := (cancel_pred_iff oid o).mpr ⟨hid, hst⟩
    have hsome : (s.orders.find? (cancel_pred oid)).isSome := by
      rw [List.find?_isSome]
      exact ⟨o, ho, hpred⟩
    obtain ⟨x, hf⟩ := Option.isSome_iff_exists.mp hsome
    have hxmem := List.mem_of_find?_eq_some hf
    have hxpred := (cancel_pred_iff oid x).mp (List.find?_some hf)
    have hxo : x = o :=
      List.inj_on_of_nodup_map hids hxmem ho (by rw [hxpred.1, hid])
    subst hxo
    obtain ⟨l₁, l₂, hdec, hl₁, hupd⟩ :=
      updateFirst_decomp (cancel_pred oid) (cancel_update env) hf
    simp only [cancel_order, hf, hupd]
    simp
  · cases hf : s.orders.find? (cancel_pred oid) with
    | none => intro h; simp [cancel_order, hf] at h
    | some x =>
      intro _
      obtain ⟨l₁, l₂, hdec, hl₁, hupd⟩ :=
        updateFirst_decomp (cancel_pred oid) (cancel_update env) hf
      have hxid : x.order_id = oid := ((cancel_pred_iff oid x).mp (List.find?_some hf)).1
      have hnotin : ¬ x.order_id ∈ l₂.map PaperOrder.order_id := by
        rw [hdec] at hids
        simp only [List.map_append, List.map_cons, List.nodup_append] at hids
        exact (List.nodup_cons.mp hids.2.1).1
      have hnone : (l₁ ++ cancel_update env x :: l₂).find? (cancel_pred oid) = none := by
        rw [List.find?_eq_none]
        intro y hy
        rcases List.mem_append.mp hy with hy1 | hy2
        · simp [hl₁ y hy1]
        · rcases List.mem_cons.mp hy2 with rfl | hy3
          · simp [cancel_pred, cancel_update]
          · intro hcon
            have hyid : y.order_id = oid := ((cancel_pred_iff oid y).mp hcon).1
            apply hnotin
            rw [hxid, ← hyid]
            exact List.mem_map_of_mem PaperOrder.order_id hy3
      simp only [cancel_order, hf, hupd]
      simp only [cancel_order, hnone]


/-- Unfolding one step of `apply_fills`. -/
theorem apply_fills_cons (s : EngineState) (f : FillInput) (fs : List FillInput) :
    apply_fills s (f :: fs) =
      apply_fills (fill_order s f.order f.fill_price f.fill_quantity f.env).2.2 fs := rfl

/-- C1: Balance conservation: for any sequence of BUY/SELL fills applied through
`_fill_order`, the invariant `current_balance = initial_balance - Σ(BUY fill
values) + Σ(SELL fill values)` holds after each fill (any state satisfying it
still satisfies it after any further fill sequence); each successful fill
changes the balance by exactly `fill_price × fill_quantity` (debit on BUY,
credit on SELL); and neither `cancel_order` nor `_reject_order` touches any
account balance. -/
theorem balance_conservation
    (fills : List FillInput) (s : EngineState) (uid : String)
    (hacts : ∀ f ∈ fills, f.order.action = "BUY" ∨ f.order.action = "SELL")
    (hinv : balance_conserved s uid = true) :
    balance_conserved (apply_fills s fills) uid = true ∧
    (∀ (o : PaperOrder) (fp : ℚ) (fq : Int) (env : Env) (a : PaperAccount),
      findAccount s o.user_id = some a →
      (o.action = "BUY" → insufficient_funds s o (fp * (fq : ℚ)) = false →
        findAccount (fill_order s o fp fq env).2.2 o.user_id =
          some { a with current_balance := a.current_balance - fp * (fq : ℚ) }) ∧
      (o.action = "SELL" →
        findAccount (fill_order s o fp fq env).2.2 o.user_id =
          some { a with current_balance := a.current_balance + fp * (fq : ℚ) })) ∧
    (∀ oid env, (cancel_order s oid env).2.accounts = s.accounts) ∧
    (∀ o reason, (reject_order s o reason).2.accounts = s.accounts) := by
  refine ⟨?_, ?_, ?_, ?_⟩
  · revert hinv hacts
    induction fills generalizing s with
    | nil =>
      intro hacts hinv
      simpa [apply_fills] using hinv
    | cons f fs ih =>
      intro hacts hinv
      rw [apply_fills_cons]
      exact ih _ (fun g hg => hacts g (List.mem_cons_of_mem f hg))
        (balance_conserved_fill s f.order f.fill_price f.fill_quantity f.env uid
          (hacts f (List.mem_cons_self f fs)) hinv)
  · intro o fp fq env a hfa
    have hfa' : s.accounts.find? (fun x => x.user_id == o.user_id) = some a := hfa
    constructor
    · intro hb hins
      simp only [fill_order, hins, Bool.false_eq_true, if_false, findAccount]
      rw [findAccount_update_self, hfa']
      simp [hb]
    · intro hs
      have hins : insufficient_funds s o (fp * (fq : ℚ)) = false := by
        simp [insufficient_funds, hs]
      simp only [fill_order, hins, Bool.false_eq_true, if_false, findAccount]
      rw [findAccount_update_self, hfa']
      simp [hs]
  · intro oid env
    cases hf : s.orders.find? (cancel_pred oid) <;> simp [cancel_order, hf]
  · intro o reason
    rfl


/-- C3: Insufficient-funds atomic rejection: a BUY fill whose account balance is
below `fill_price × fill_quantity` is handled by marking the order REJECTED
with reason "Insufficient funds", leaving accounts, positions and trades
entirely unchanged. -/
theorem insufficient_funds_rejection (s : EngineState) (o : PaperOrder) (fp : ℚ) (fq : Int)
    (env : Env) (a : PaperAccount)
    (hbuy : o.action = "BUY")
    (hacct : findAccount s o.user_id = some a)
    (hlt : a.current_balance < fp * (fq : ℚ)) :
    (fill_order s o fp fq env).1 = true ∧
    (fill_order s o fp fq env).2.1.status = "REJECTED" ∧
    (fill_order s o fp fq env).2.1.rejection_reason = some "Insufficient funds" ∧
    (fill_order s o fp fq env).2.2.accounts = s.accounts ∧
    (fill_order s o fp fq env).2.2.positions = s.positions ∧
    (fill_order s o fp fq env).2.2.trades = s.trades := by
  have hins : insufficient_funds s o (fp * (fq : ℚ)) = true := by
    simp [insufficient_funds, hbuy, hacct, hlt]
  simp [fill_order, hins, reject_order]

/-- C7: Position non-zero invariant: if no persisted position row has quantity
zero, then after any `_fill_order` call (fill or reject) still no persisted
position row has quantity zero — a position reaching zero is deleted in the
same fill and new rows are only created with nonzero quantity. -/
theorem position_nonzero_invariant (s : EngineState) (o : PaperOrder) (fp : ℚ) (fq : Int)
    (env : Env) (h : positions_nonzero s = true) :
    positions_nonzero (fill_order s o fp fq env).2.2 = true := by
  cases hins : insufficient_funds s o (fp * (fq : ℚ)) with
  | true => simpa [fill_order, hins, reject_order, positions_nonzero] using h
  | false =>
    simp only [fill_order, hins, Bool.false_eq_true, if_false]
    simp only [positions_nonzero] at h
    have h' : ∀ p ∈ s.positions, p.quantity ≠ 0 := by
      intro p hp
      simpa using (List.all_eq_true.mp h) p hp
    have h2 := update_position_nonzero s.positions o fp fq h'
    simp only [positions_nonzero]
    rw [List.all_eq_true]
    intro p hp
    simpa using h2 p hp

/-- C10: Every trade row created by a fill has `brokerage = 0`, `taxes = 0` and
`net_value = trade_value = fill_price × fill_quantity`: the property is
preserved by every `_fill_order` call, the new row satisfying it by
construction. -/
theorem trade_costs_invariant (s : EngineState) (o : PaperOrder) (fp : ℚ) (fq : Int)
    (env : Env) (h : trades_costs_zero s = true) :
    trades_costs_zero (fill_order s o fp fq env).2.2 = true := by
  cases hins : insufficient_funds s o (fp * (fq : ℚ)) with
  | true => simpa [fill_order, hins, reject_order, trades_costs_zero] using h
  | false =>
    simp only [fill_order, hins, Bool.false_eq_true, if_false, trades_costs_zero]
    simp only [trades_costs_zero] at h
    rw [List.all_append]
    simp [h, trade_costs_zero, mk_trade]


/-- C4 (amended): a MARKET order is always handled in one `process_order` call;
with no oracle price it is REJECTED ("Unable to get current market price");
with a price it is FILLED for the full requested quantity at that price
whenever the `_fill_order` funds guard passes, and REJECTED with
"Insufficient funds" when the guard fails. -/
theorem market_order_amended (s : EngineState) (o : PaperOrder) (cp : Option ℚ) (env : Env)
    (hm : o.price_type = "MARKET") :
    (process_order s o cp env).1 = true ∧
    (cp = none → (process_order s o cp env).2.1.status = "REJECTED" ∧
      (process_order s o cp env).2.1.rejection_reason =
        some "Unable to get current market price") ∧
    (∀ p : ℚ, cp = some p →
      (insufficient_funds s o (p * (o.quantity : ℚ)) = false →
        (process_order s o cp env).2.1.status = "FILLED" ∧
        (process_order s o cp env).2.1.filled_quantity = o.quantity ∧
        (process_order s o cp env).2.1.average_price = some p) ∧
      (insufficient_funds s o (p * (o.quantity : ℚ)) = true →
        (process_order s o cp env).2.1.status = "REJECTED" ∧
        (process_order s o cp env).2.1.rejection_reason = some "Insufficient funds")) := by
  have hpo : process_order s o cp env = process_market_order s o cp env := by
    simp [process_order, hm]
  rw [hpo]
  refine ⟨?_, ?_, ?_⟩
  · cases cp with
    | none => simp [process_market_order, reject_order]
    | some p =>
      simp only [process_market_order]
      cases hins : insufficient_funds s o (p * (o.quantity : ℚ)) <;>
        simp [fill_order, hins, reject_order]
  · rintro rfl
    simp [process_market_order, reject_order]
  · rintro p rfl
    constructor
    · intro hins
      simp [process_market_order, fill_order, hins]
    · intro hins
      simp [process_market_order, fill_order, hins, reject_order]

/-- C5 (amended): for a LIMIT order with a price, a BUY evaluates
`current ≤ limit` and a SELL `limit ≤ current` (boundary inclusive); when the
condition fails or no price is available the order stays PENDING untouched;
when it holds the order is handled: FILLED at the configured limit price for
the full quantity if the funds guard passes, REJECTED otherwise. -/
theorem limit_order_amended (s : EngineState) (o : PaperOrder) (cp : Option ℚ) (env : Env)
    (limit : ℚ) (hl : o.price = some limit) :
    (cp = none → process_limit_order s o cp env = (false, o, s)) ∧
    (∀ p : ℚ, cp = some p →
      (o.action = "BUY" → (limit_should_fill o p limit = true ↔ p ≤ limit)) ∧
      (o.action = "SELL" → (limit_should_fill o p limit = true ↔ limit ≤ p)) ∧
      (limit_should_fill o p limit = false → process_limit_order s o cp env = (false, o, s)) ∧
      (limit_should_fill o p limit = true →
        (process_limit_order s o cp env).1 = true ∧
        (insufficient_funds s o (limit * (o.quantity : ℚ)) = false →
          (process_limit_order s o cp env).2.1.status = "FILLED" ∧
          (process_limit_order s o cp env).2.1.average_price = some limit ∧
          (process_limit_order s o cp env).2.1.filled_quantity = o.quantity) ∧
        (insufficient_funds s o (limit * (o.quantity : ℚ)) = true →
          (process_limit_order s o cp env).2.1.status = "REJECTED" ∧
          (process_limit_order s o cp env).2.1.rejection_reason =
            some "Insufficient funds"))) := by
  constructor
  · rintro rfl
    simp [process_limit_order, hl]
  · rintro p rfl
    refine ⟨?_, ?_, ?_, ?_⟩
    · intro hb; simp [limit_should_fill, hb]
    · intro hb; simp [limit_should_fill, hb]
    · intro hsf; simp [process_limit_order, hl, hsf]
    · intro hsf
      refine ⟨?_, ?_, ?_⟩
      · cases hins : insufficient_funds s o (limit * (o.quantity : ℚ)) <;>
          simp [process_limit_order, hl, hsf, fill_order, hins, reject_order]
      · intro hins
        simp [process_limit_order, hl, hsf, fill_order, hins]
      · intro hins
        simp [process_limit_order, hl, hsf, fill_order, hins, reject_order]

/-- C6 (amended): for an SL/SLM order with a trigger price, a BUY triggers when
`trigger ≤ current` and a SELL when `current ≤ trigger`; if untriggered or no
price is available it stays PENDING untouched; on trigger the execution price
is, for SLM, the current price and, for SL, the configured price when it is
set and nonzero, else the current price (Python truthiness); the order is then
FILLED at that price if the funds guard passes and REJECTED otherwise. -/
theorem stop_loss_amended (s : EngineState) (o : PaperOrder) (cp : Option ℚ) (env : Env)
    (trigger : ℚ) (ht : o.trigger_price = some trigger) :
    (cp = none → process_stop_loss_order s o cp env = (false, o, s)) ∧
    (∀ p : ℚ, cp = some p →
      (o.action = "BUY" → (sl_should_trigger o p trigger = true ↔ trigger ≤ p)) ∧
      (o.action = "SELL" → (sl_should_trigger o p trigger = true ↔ p ≤ trigger)) ∧
      (sl_should_trigger o p trigger = false →
        process_stop_loss_order s o cp env = (false, o, s)) ∧
      (sl_should_trigger o p trigger = true →
        (o.price_type = "SLM" → sl_execution_price o p = p) ∧
        (o.price_type = "SL" →
          ∀ pr : ℚ, o.price = some pr → pr ≠ 0 → sl_execution_price o p = pr) ∧
        (o.price_type = "SL" → o.price = none ∨ o.price = some 0 →
          sl_execution_price o p = p) ∧
        (process_stop_loss_order s o cp env).1 = true ∧
        (insufficient_funds s o (sl_execution_price o p * (o.quantity : ℚ)) = false →
          (process_stop_loss_order s o cp env).2.1.status = "FILLED" ∧
          (process_stop_loss_order s o cp env).2.1.average_price =
            some (sl_execution_price o p) ∧
          (process_stop_loss_order s o cp env).2.1.filled_quantity = o.quantity) ∧
        (insufficient_funds s o (sl_execution_price o p * (o.quantity : ℚ)) = true →
          (process_stop_loss_order s o cp env).2.1.status = "REJECTED" ∧
          (process_stop_loss_order s o cp env).2.1.rejection_reason =
            some "Insufficient funds"))) := by
  constructor
  · rintro rfl
    simp [process_stop_loss_order, ht]
  · rintro p rfl
    refine ⟨?_, ?_, ?_, ?_⟩
    · intro hb; simp [sl_should_trigger, hb]
    · intro hb; simp [sl_should_trigger, hb]
    · intro hst; simp [process_stop_loss_order, ht, hst]
    · intro hst
      refine ⟨?_, ?_, ?_, ?_, ?_, ?_⟩
      · intro hslm; simp [sl_execution_price, hslm]
      · intro hsl pr hpr hpr0; simp [sl_execution_price, hsl, hpr, hpr0]
      · rintro hsl (hpr | hpr) <;> simp [sl_execution_price, hsl, hpr]
      · cases hins : insufficient_funds s o (sl_execution_price o p * (o.quantity : ℚ)) <;>
          simp [process_stop_loss_order, ht, hst, fill_order, hins, reject_order]
      · intro hins
        simp [process_stop_loss_order, ht, hst, fill_order, hins]
      · intro hins
        simp [process_stop_loss_order, ht, hst, fill_order, hins, reject_order]


/-- C2: evaluation of `_update_position` at the failing input: a long position
of 10 @ 100 hit by a SELL fill of 15 @ 120 flips to a short position of 5
whose average price is still 100 — the "partial closure" branch
(`abs(new) < abs(old)`) also captures sign flips, so the average price is not
reset to the fill price as the spec requires. -/
theorem position_flip_average_bug :
    0 < longPosition.quantity ∧
    update_position [longPosition] sellOrder 120 15 =
      [{ user_id := "U1", symbol := "RELIANCE", exchange := "NSE", product := "MIS",
          quantity := -5, average_price := 100 }] := by
  constructor
  · simp [longPosition]
  · simp [update_position, updateFirst, posKeyMatches, longPosition, sellOrder, exOrder,
      List.find?, removeFirst]

/-- C4 (counterexample): a MARKET BUY of 100 shares at an available oracle price
of 50 against a balance of 1000 is handled but REJECTED, not FILLED — refuting
"when the oracle has a price the order is FILLED". -/
theorem market_order_counterexample :
    (process_order poorState bigBuyOrder (some 50) exEnv).1 = true ∧
    (process_order poorState bigBuyOrder (some 50) exEnv).2.1.status = "REJECTED" ∧
    (process_order poorState bigBuyOrder (some 50) exEnv).2.1.status ≠ "FILLED" := by
  have h : (process_order poorState bigBuyOrder (some 50) exEnv).2.1.status = "REJECTED" := by
    simp [process_order, process_market_order, fill_order, insufficient_funds, findAccount,
      poorState, poorAccount, bigBuyOrder, exOrder, reject_order, List.find?]
    norm_num
  refine ⟨?_, h, by rw [h]; decide⟩
  simp [process_order, process_market_order, fill_order, insufficient_funds, findAccount,
    poorState, poorAccount, bigBuyOrder, exOrder, reject_order, List.find?]
  norm_num

/-- C5 (counterexample): a BUY LIMIT at 50 with current price 50 (condition
met) on a balance of 1000 for 100 shares is REJECTED, neither FILLED nor left
PENDING — refuting "fills exactly when current price ≤ limit price ...
otherwise remains PENDING without rejection". -/
theorem limit_order_counterexample :
    limit_should_fill limitBuyOrder 50 50 = true ∧
    (process_limit_order limitPoorState limitBuyOrder (some 50) exEnv).2.1.status = "REJECTED" ∧
    (process_limit_order limitPoorState limitBuyOrder (some 50) exEnv).2.1.status ≠ "FILLED" ∧
    (process_limit_order limitPoorState limitBuyOrder (some 50) exEnv).2.1.status ≠ "PENDING" := by
  have h : (process_limit_order limitPoorState limitBuyOrder (some 50) exEnv).2.1.status =
      "REJECTED" := by
    simp [process_limit_order, limit_should_fill, fill_order, insufficient_funds, findAccount,
      limitPoorState, poorAccount, limitBuyOrder, exOrder, reject_order, List.find?]
    norm_num
  refine ⟨by simp [limit_should_fill, limitBuyOrder, exOrder], h, by rw [h]; decide,
    by rw [h]; decide⟩

/-- C6 (counterexample): an SL BUY with trigger 100 and configured price 0,
triggered at current price 100, fills at the current price 100 rather than at
its set price 0 — refuting "an SL order fills at its configured price if one
is set". -/
theorem stop_loss_counterexample :
    slZeroPriceOrder.price = some 0 ∧
    sl_should_trigger slZeroPriceOrder 100 100 = true ∧
    (process_stop_loss_order slState slZeroPriceOrder (some 100) exEnv).2.1.status = "FILLED" ∧
    (process_stop_loss_order slState slZeroPriceOrder (some 100) exEnv).2.1.average_price =
      some 100 ∧
    (process_stop_loss_order slState slZeroPriceOrder (some 100) exEnv).2.1.average_price ≠
      some 0 := by
  have hs : (process_stop_loss_order slState slZeroPriceOrder (some 100) exEnv).2.1.status =
      "FILLED" := by
    simp [process_stop_loss_order, sl_should_trigger, sl_execution_price, fill_order,
      insufficient_funds, findAccount, slState, exAccount, slZeroPriceOrder, exOrder,
      reject_order, List.find?]
    norm_num
  have ha : (process_stop_loss_order slState slZeroPriceOrder (some 100) exEnv).2.1.average_price =
      some 100 := by
    simp [process_stop_loss_order, sl_should_trigger, sl_execution_price, fill_order,
      insufficient_funds, findAccount, slState, exAccount, slZeroPriceOrder, exOrder,
      reject_order, List.find?]
    norm_num
  refine ⟨rfl, by simp [sl_should_trigger, slZeroPriceOrder, exOrder], hs, ha, ?_⟩
  rw [ha]
  simp

/-- C9 (counterexample): for the configured mode string "demo",
`_get_trading_mode` raises, but `get_current_mode` swallows the error and
returns "live" — an invalid value is silently defaulted at that resolution
entry point, refuting "never silently defaulted to a mode". -/
theorem trading_mode_silent_default :
    get_trading_mode (some "demo") = Except.error "Invalid OPENALGO_TRADING_MODE: demo" ∧
    get_current_mode (some "demo") = "live" := by
  constructor <;> decide

/-- C9 (amended): mode resolution lowercases then trims the configured string;
`_get_trading_mode` accepts exactly "live"/"paper" and raises `ValueError` on
anything else, but `get_current_mode` catches that error and falls back to
"live". -/
theorem trading_mode_resolution (s : String) :
    (pyStrip (pyLower s) = "live" ∨ pyStrip (pyLower s) = "paper" →
      get_trading_mode (some s) = Except.ok (pyStrip (pyLower s)) ∧
      get_current_mode (some s) = pyStrip (pyLower s)) ∧
    (pyStrip (pyLower s) ≠ "live" → pyStrip (pyLower s) ≠ "paper" →
      get_trading_mode (some s) =
        Except.error ("Invalid OPENALGO_TRADING_MODE: " ++ pyStrip (pyLower s)) ∧
      get_current_mode (some s) = "live") := by
  constructor
  · intro h
    have hb : (pyStrip (pyLower s) == "live" || pyStrip (pyLower s) == "paper") = true := by
      rcases h with h | h <;> simp [h]
    simp [get_trading_mode, get_current_mode, hb]
  · intro h1 h2
    have hb : (pyStrip (pyLower s) == "live" || pyStrip (pyLower s) == "paper") = false := by
      simp [h1, h2]
    simp [get_trading_mode, get_current_mode, hb]


/-- Witness for C1 at a concrete two-fill scenario. -/
theorem balance_conservation_witness :
    balance_conserved (apply_fills exState [c1Fill1, c1Fill2]) "U1" = true :=
  (balance_conservation [c1Fill1, c1Fill2] exState "U1"
    (by intro f hf
        simp only [List.mem_cons, List.not_mem_nil, or_false] at hf
        rcases hf with rfl | rfl
        · exact Or.inl rfl
        · exact Or.inr rfl)
    (by simp [balance_conserved, findAccount, exState, exAccount, buy_value_sum,
          sell_value_sum, List.find?])).1

/-- Witness for C3 at the spec scenario (balance 1000, BUY 100 @ 50). -/
theorem insufficient_funds_rejection_witness :
    (fill_order poorState bigBuyOrder 50 100 exEnv).2.1.status = "REJECTED" ∧
    (fill_order poorState bigBuyOrder 50 100 exEnv).2.2.accounts = poorState.accounts := by
  have h := insufficient_funds_rejection poorState bigBuyOrder 50 100 exEnv poorAccount rfl
    (by simp [findAccount, poorState, poorAccount, bigBuyOrder, exOrder, List.find?])
    (by norm_num [poorAccount])
  exact ⟨h.2.1, h.2.2.2.1⟩

/-- Witness for C4 at the spec scenario (MARKET BUY 10 @ 2450.50). -/
theorem market_order_amended_witness :
    (process_order exState exOrder (some (2450.50 : ℚ)) exEnv).1 = true ∧
    (process_order exState exOrder (some (2450.50 : ℚ)) exEnv).2.1.status = "FILLED" := by
  have h := market_order_amended exState exOrder (some (2450.50 : ℚ)) exEnv rfl
  refine ⟨h.1, ?_⟩
  have h2 := (h.2.2 (2450.50 : ℚ) rfl).1 ?hins
  case hins =>
    simp [insufficient_funds, findAccount, exState, exAccount, exOrder, List.find?]
    norm_num
  exact h2.1

/-- Witness for C5 at the inclusive boundary (BUY LIMIT 100, current 100). -/
theorem limit_order_amended_witness :
    (process_limit_order exState limitWitOrder (some 100) exEnv).2.1.status = "FILLED" ∧
    (process_limit_order exState limitWitOrder (some 100) exEnv).2.1.average_price =
      some 100 := by
  have h := limit_order_amended exState limitWitOrder (some 100) exEnv 100 rfl
  have h4 := (h.2 100 rfl).2.2.2 (by simp [limit_should_fill, limitWitOrder, exOrder])
  have h2 := h4.2.1 ?hins
  case hins =>
    simp [insufficient_funds, findAccount, exState, exAccount, limitWitOrder, exOrder,
      List.find?]
    norm_num
  exact ⟨h2.1, h2.2.1⟩

/-- Witness for C6 (SLM BUY, trigger 100, current 120). -/
theorem stop_loss_amended_witness :
    (process_stop_loss_order exState slmWitOrder (some 120) exEnv).2.1.status = "FILLED" ∧
    (process_stop_loss_order exState slmWitOrder (some 120) exEnv).2.1.average_price =
      some 120 := by
  have h := stop_loss_amended exState slmWitOrder (some 120) exEnv 100 rfl
  have h4 := (h.2 120 rfl).2.2.2 (by norm_num [sl_should_trigger, slmWitOrder, exOrder])
  have he : sl_execution_price slmWitOrder 120 = 120 := h4.1 rfl
  have h2 := h4.2.2.2.2.1 ?hins
  case hins =>
    rw [he]
    simp [insufficient_funds, findAccount, exState, exAccount, slmWitOrder, exOrder,
      List.find?]
    norm_num
  exact ⟨h2.1, by rw [h2.2.1, he]⟩

/-- Witness for C7 (SELL 15 against a long position of 10). -/
theorem position_nonzero_invariant_witness :
    positions_nonzero (fill_order posState sellOrder 120 15 exEnv).2.2 = true :=
  position_nonzero_invariant posState sellOrder 120 15 exEnv (by decide)

/-- Witness for C8: cancelling a pending order succeeds once, then fails. -/
theorem cancel_order_compare_and_set_witness :
    (cancel_order exState "O1" exEnv).1 = true ∧
    (cancel_order (cancel_order exState "O1" exEnv).2 "O1" exEnv).1 = false := by
  have h := cancel_order_compare_and_set exState "O1" exEnv exEnv (by decide)
  have h1 : (cancel_order exState "O1" exEnv).1 = true :=
    h.1.mpr ⟨exOrder, by decide, rfl, rfl⟩
  exact ⟨h1, h.2.2.2 h1⟩

/-- Witness for C9 at the configured string " PAPER ". -/
theorem trading_mode_resolution_witness :
    get_trading_mode (some " PAPER ") = Except.ok "paper" ∧
    get_current_mode (some " PAPER ") = "paper" := by
  have h := (trading_mode_resolution " PAPER ").1 (Or.inr (by decide))
  exact ⟨h.1, h.2⟩

/-- Witness for C10 at a concrete fill. -/
theorem trade_costs_invariant_witness :
    trades_costs_zero (fill_order exState exOrder 100 10 exEnv).2.2 = true :=
  trade_costs_invariant exState exOrder 100 10 exEnv (by decide)

end OpenAlgo
